import Mathlib

/-!
Shallow embedding of the core of `mcstatus` (files `mcstatus/protocol/connection.py`
and `mcstatus/server.py`) together with proofs about the codec, the buffered
connection, the transports and the retry orchestrator.

Bytes are modelled as `Nat` (every value the code writes is in `[0, 256)`); Python
integers are modelled as `Int` with Python's two's-complement bitwise semantics
(`pyAnd`, `pyOr`, `pyNot`, `pyShr` below, which implement the infinite
two's-complement view Python uses); raising an exception is modelled as
returning `Except.error`.  State mutated before a `raise` is discarded by the
`Except` threading; no claim observes state after an exception.
-/

set_option maxRecDepth 8192

/-- Decidable equality for `Except` results, used to evaluate the model on
concrete inputs. -/
instance {ε α : Type} [DecidableEq ε] [DecidableEq α] : DecidableEq (Except ε α) := fun x y =>
  match x, y with
  | .ok a, .ok b =>
    if h : a = b then isTrue (by rw [h]) else isFalse (fun hh => h (Except.ok.inj hh))
  | .error a, .error b =>
    if h : a = b then isTrue (by rw [h]) else isFalse (fun hh => h (Except.error.inj hh))
  | .ok _, .error _ => isFalse (fun hh => Except.noConfusion hh)
  | .error _, .ok _ => isFalse (fun hh => Except.noConfusion hh)

/-- Python bytes are modelled as natural numbers (the code only produces values
below 256). -/
abbrev Byte := Nat

/-- Python exceptions raised by the modelled code, with their messages. -/
inductive PyErr where
  | IOError (msg : String)
  | ValueError (msg : String)
  | TypeError (msg : String)
  | AttributeError (msg : String)
  | StructError (msg : String)
  | NameError (msg : String)
  | UnicodeDecodeError
  deriving Repr, DecidableEq

/-- Value held in the `sent` attribute of a buffered `Connection`.  The
constructor sets it to an empty bytearray, every `write` extends a bytearray,
but `flush` re-assigns the Python *string* `""` to it (source line
`self.sent = ""`), so both cases must be represented. -/
inductive SentVal where
  | bytearray (l : List Byte)
  | str (s : String)
  deriving Repr, DecidableEq

/-- Buffered in-memory connection: `Connection.__init__` creates
`sent = bytearray()` and `received = bytearray()`. -/
structure Connection where
  sent : SentVal
  received : List Byte
  deriving Repr, DecidableEq

/-- Argument passed to `Connection.write`, which duck-types on `Connection`,
`str` and bytes-like values. -/
inductive PyData where
  | bytes (l : List Byte)
  | str (s : String)
  | conn (c : Connection)

/-- Model of `Connection.read`: `result = self.received[:length]`;
`self.received = self.received[length:]`.  Python slicing silently returns
fewer than `length` bytes when the queue is short, so no error is possible. -/
def Connection.read (c : Connection) (length : Nat) : List Byte × Connection :=
  (c.received.take length, { c with received := c.received.drop length })

/-- Model of `Connection.write`: a `Connection` argument is first flushed and
wrapped in `bytearray`, a `str` argument is passed to `bytearray` without an
encoding (a `TypeError` in Python 3), then `self.sent.extend(data)` runs, which
raises `AttributeError` when `sent` holds the string `""` left behind by
`flush`.  The flushed source connection is mutated in Python; no modelled
caller reuses it, so its updated state is not returned here. -/
def Connection.write (c : Connection) (data : PyData) : Except PyErr Connection := do
  let bs : List Byte ←
    match data with
    | .conn d =>
      match d.sent with
      | .bytearray l => pure l
      | .str _ => .error (.TypeError ("string argument without an encoding"))
    | .str _ => .error (.TypeError ("string argument without an encoding"))
    | .bytes l => pure l
  match c.sent with
  | .bytearray l => pure { c with sent := .bytearray (l ++ bs) }
  | .str _ => .error (.AttributeError ("str object has no attribute extend"))

/-- Model of `Connection.receive`: append to the received queue. -/
def Connection.receive (c : Connection) (data : List Byte) : Connection :=
  { c with received := c.received ++ data }

/-- Model of `Connection.remaining`: `len(self.received)`. -/
def Connection.remaining (c : Connection) : Nat :=
  c.received.length

/-- Model of `Connection.flush`: returns the current `sent` value and then
re-assigns `self.sent = ""` — the empty *string*, not an empty bytearray. -/
def Connection.flush (c : Connection) : SentVal × Connection :=
  (c.sent, { c with sent := .str "" })

/-- Bitwise and-not on naturals (`m & ~n`): clearing from `m` the bits it
shares with `n` is subtracting `m &&& n`, a form whose operations the kernel
evaluates directly. -/
def natLdiff (m n : Nat) : Nat :=
  m - (m &&& n)

/-- Python bitwise `&` on arbitrary integers, in the infinite two's-complement
view (`-[m+1]` stands for the complement of `m`). -/
def pyAnd : Int → Int → Int
  | .ofNat m, .ofNat n => .ofNat (m &&& n)
  | .ofNat m, .negSucc n => .ofNat (natLdiff m n)
  | .negSucc m, .ofNat n => .ofNat (natLdiff n m)
  | .negSucc m, .negSucc n => .negSucc (m ||| n)

/-- Python bitwise `|` on arbitrary integers, in the infinite two's-complement
view. -/
def pyOr : Int → Int → Int
  | .ofNat m, .ofNat n => .ofNat (m ||| n)
  | .ofNat m, .negSucc n => .negSucc (natLdiff n m)
  | .negSucc m, .ofNat n => .negSucc (natLdiff m n)
  | .negSucc m, .negSucc n => .negSucc (m &&& n)

/-- Python `~` on integers: `~a = -a - 1`. -/
def pyNot (a : Int) : Int :=
  Int.not a

/-- Python `>>` on integers: arithmetic right shift (floor division by a power
of two), `Int.shiftRight` from core. -/
def pyShr (a : Int) (s : Nat) : Int :=
  Int.shiftRight a s

/-- Model of Python `ord` applied to the bytes object returned by `read(1)`:
succeeds only on a length-one sequence, otherwise raises `TypeError`. -/
def pyOrd (l : List Byte) : Except PyErr Byte :=
  match l with
  | [b] => .ok b
  | _ => .error (.TypeError ("ord expected a character of length 1"))

/-- Loop body of `Connection.read_varint`: `for i in range(5)` reads one byte,
accumulates `result |= (part & 0x7F) << 7 * i` and stops at the first byte
whose continuation bit `0x80` is clear; fuel counts the remaining iterations
and exhausting it models the final `raise IOError(...)`. -/
def readVarintGo (c : Connection) (result i : Nat) : Nat → Except PyErr (Nat × Connection)
  | 0 => .error (.IOError ("Server sent a varint that was too big!"))
  | fuel + 1 => do
    let (chunk, c) := c.read 1
    let part ← pyOrd chunk
    let result := result ||| ((part &&& 0x7F) <<< (7 * i))
    if part &&& 0x80 = 0 then
      .ok (result, c)
    else
      readVarintGo c result (i + 1) fuel

/-- Model of `Connection.read_varint`. -/
def Connection.read_varint (c : Connection) : Except PyErr (Nat × Connection) :=
  readVarintGo c 0 0 5

/-- Model of `struct.pack("!B", x)`: one unsigned byte, raising `struct.error`
outside `[0, 256)`. -/
def structPackB (x : Int) : Except PyErr Byte :=
  if 0 ≤ x ∧ x < 256 then .ok x.toNat
  else .error (.StructError ("ubyte format requires 0 <= number <= 255"))

/-- Loop body of `Connection.write_varint`: while `remaining & ~0x7F` is
nonzero emit `remaining & 0x7F | 0x80` and shift right by 7 (Python arithmetic
shift), else emit `remaining` and stop; exhausting the 5 iterations models
`raise ValueError(...)`.  Python's `&`, `|`, `~` and `>>` on possibly negative
ints are `pyAnd`, `pyOr`, `pyNot` and `pyShr`. -/
def writeVarintGo (c : Connection) (value remaining : Int) : Nat → Except PyErr Connection
  | 0 => .error (.ValueError ("The value " ++ toString value ++ " is too big to send in a varint"))
  | fuel + 1 =>
    if pyAnd remaining (pyNot 0x7F) = 0 then do
      let b ← structPackB remaining
      c.write (.bytes [b])
    else do
      let b ← structPackB (pyOr (pyAnd remaining 0x7F) 0x80)
      let c ← c.write (.bytes [b])
      writeVarintGo c value (pyShr remaining 7) fuel

/-- Model of `Connection.write_varint`. -/
def Connection.write_varint (c : Connection) (value : Int) : Except PyErr Connection :=
  writeVarintGo c value value 5

/-- UTF-8 encoding of one code point (model of Python `str` → `utf8` bytes for
a single character; Lean `Char` excludes surrogates just as Python `encode`
rejects them). -/
def utf8EncodeChar (n : Nat) : List Byte :=
  if n < 0x80 then [n]
  else if n < 0x800 then
    [0xC0 ||| (n >>> 6), 0x80 ||| (n &&& 0x3F)]
  else if n < 0x10000 then
    [0xE0 ||| (n >>> 12), 0x80 ||| ((n >>> 6) &&& 0x3F), 0x80 ||| (n &&& 0x3F)]
  else
    [0xF0 ||| (n >>> 18), 0x80 ||| ((n >>> 12) &&& 0x3F),
      0x80 ||| ((n >>> 6) &&& 0x3F), 0x80 ||| (n &&& 0x3F)]

/-- Model of `bytearray(value, "utf8")`: UTF-8 encoding of a string. -/
def utf8Encode (s : String) : List Byte :=
  s.data.foldr (fun ch acc => utf8EncodeChar ch.toNat ++ acc) []

/-- Strict UTF-8 decoder (model of Python `bytes.decode("utf8")`): rejects
continuation-byte starts, overlong forms, surrogates, values above `0x10FFFF`
and truncated sequences, exactly as CPython's strict codec does. -/
def utf8DecodeGo : List Byte → List Char → Except PyErr (List Char)
  | [], acc => .ok acc.reverse
  | b :: rest, acc =>
    if b < 0x80 then
      utf8DecodeGo rest (Char.ofNat b :: acc)
    else if b < 0xC2 then
      .error .UnicodeDecodeError
    else if b < 0xE0 then
      match rest with
      | b1 :: rest1 =>
        if 0x80 ≤ b1 ∧ b1 < 0xC0 then
          utf8DecodeGo rest1 (Char.ofNat (((b &&& 0x1F) <<< 6) ||| (b1 &&& 0x3F)) :: acc)
        else .error .UnicodeDecodeError
      | _ => .error .UnicodeDecodeError
    else if b < 0xF0 then
      match rest with
      | b1 :: b2 :: rest2 =>
        if (0x80 ≤ b1 ∧ b1 < 0xC0) ∧ (0x80 ≤ b2 ∧ b2 < 0xC0)
            ∧ (b = 0xE0 → 0xA0 ≤ b1) ∧ (b = 0xED → b1 < 0xA0) then
          utf8DecodeGo rest2
            (Char.ofNat ((((b &&& 0x0F) <<< 12) ||| ((b1 &&& 0x3F) <<< 6)) ||| (b2 &&& 0x3F)) :: acc)
        else .error .UnicodeDecodeError
      | _ => .error .UnicodeDecodeError
    else if b < 0xF5 then
      match rest with
      | b1 :: b2 :: b3 :: rest3 =>
        if (0x80 ≤ b1 ∧ b1 < 0xC0) ∧ (0x80 ≤ b2 ∧ b2 < 0xC0) ∧ (0x80 ≤ b3 ∧ b3 < 0xC0)
            ∧ (b = 0xF0 → 0x90 ≤ b1) ∧ (b = 0xF4 → b1 < 0x90) then
          utf8DecodeGo rest3
            (Char.ofNat (((((b &&& 0x07) <<< 18) ||| ((b1 &&& 0x3F) <<< 12))
              ||| ((b2 &&& 0x3F) <<< 6)) ||| (b3 &&& 0x3F)) :: acc)
        else .error .UnicodeDecodeError
      | _ => .error .UnicodeDecodeError
    else .error .UnicodeDecodeError

/-- Model of `bytes.decode("utf8")` on a byte sequence. -/
def utf8Decode (l : List Byte) : Except PyErr String :=
  (utf8DecodeGo l []).map fun cs => ⟨cs⟩

/-- Model of `Connection.read_utf`: read a varint length, read that many bytes,
decode them as UTF-8. -/
def Connection.read_utf (c : Connection) : Except PyErr (String × Connection) := do
  let (length, c) ← c.read_varint
  let (chunk, c) := c.read length
  let s ← utf8Decode chunk
  .ok (s, c)

/-- Model of `Connection.write_utf`: `self.write_varint(len(value))` writes the
number of *characters* of the string (Python `len` of a `str`), then the UTF-8
bytes are written. -/
def Connection.write_utf (c : Connection) (value : String) : Except PyErr Connection := do
  let c ← c.write_varint (value.length : Int)
  c.write (.bytes (utf8Encode value))

/-- Model of `Connection.read_buffer`: read a varint length, wrap that many
bytes of the stream in a fresh buffered connection; returns the sub-packet
connection and the updated outer connection. -/
def Connection.read_buffer (c : Connection) : Except PyErr (Connection × Connection) := do
  let (length, c) ← c.read_varint
  let result : Connection := ⟨.bytearray [], []⟩
  let (chunk, c) := c.read length
  .ok (result.receive chunk, c)

/-- Model of `Connection.write_buffer`: flush the sub-packet builder, write the
varint of `len(data)` and then the data; returns the updated outer connection
and the flushed builder. -/
def Connection.write_buffer (c : Connection) (buffer : Connection) :
    Except PyErr (Connection × Connection) := do
  let (data, buffer) := buffer.flush
  match data with
  | .bytearray l => do
    let c ← c.write_varint (l.length : Int)
    let c ← c.write (.bytes l)
    .ok (c, buffer)
  | .str s => do
    let c ← c.write_varint (s.length : Int)
    let c ← c.write (.str s)
    .ok (c, buffer)

/-- Stream transport.  The asyncio stream reader is modelled by `chunks`: the
list of byte sequences successive `self._reader.read(...)` calls return; an
exhausted list means the stream is at EOF, where every further read returns
zero bytes (exactly what a closed peer produces). -/
structure TCPSocketConnection where
  chunks : List (List Byte)
  deriving Repr, DecidableEq

/-- Model of `TCPSocketConnection.flush`: always raises `TypeError`. -/
def TCPSocketConnection.flush (_t : TCPSocketConnection) : Except PyErr SentVal :=
  .error (.TypeError ("TCPSocketConnection does not support flush()"))

/-- Model of `TCPSocketConnection.receive`: always raises `TypeError`. -/
def TCPSocketConnection.receive (_t : TCPSocketConnection) (_data : List Byte) :
    Except PyErr Unit :=
  .error (.TypeError ("TCPSocketConnection does not support receive()"))

/-- Model of `TCPSocketConnection.remaining`: always raises `TypeError`. -/
def TCPSocketConnection.remaining (_t : TCPSocketConnection) : Except PyErr Nat :=
  .error (.TypeError ("TCPSocketConnection does not support remaining()"))

/-- Loop of `TCPSocketConnection.read`: while fewer than `length` bytes are
accumulated, receive the next chunk; a zero-length chunk (peer closed) raises
`IOError`. -/
def tcpReadGo (length : Nat) (result : List Byte) :
    List (List Byte) → Except PyErr (List Byte × List (List Byte))
  | [] =>
    if result.length < length then
      .error (.IOError ("Server did not respond with any information!"))
    else .ok (result, [])
  | new :: rest =>
    if result.length < length then
      if new.length = 0 then
        .error (.IOError ("Server did not respond with any information!"))
      else tcpReadGo length (result ++ new) rest
    else .ok (result, new :: rest)

/-- Model of `TCPSocketConnection.read`. -/
def TCPSocketConnection.read (t : TCPSocketConnection) (length : Nat) :
    Except PyErr (List Byte × TCPSocketConnection) :=
  (tcpReadGo length [] t.chunks).map fun p => (p.1, ⟨p.2⟩)

/-- Datagram transport; `datagrams` lists the payloads successive `recvfrom`
calls deliver. -/
structure UDPSocketConnection where
  datagrams : List (List Byte)
  deriving Repr, DecidableEq

/-- Model of `UDPSocketConnection.flush`: always raises `TypeError`. -/
def UDPSocketConnection.flush (_u : UDPSocketConnection) : Except PyErr SentVal :=
  .error (.TypeError ("UDPSocketConnection does not support flush()"))

/-- Model of `UDPSocketConnection.receive`: always raises `TypeError`. -/
def UDPSocketConnection.receive (_u : UDPSocketConnection) (_data : List Byte) :
    Except PyErr Unit :=
  .error (.TypeError ("UDPSocketConnection does not support receive()"))

/-- Model of `UDPSocketConnection.remaining`: returns the constant 65535 — it
does not raise. -/
def UDPSocketConnection.remaining (_u : UDPSocketConnection) : Nat :=
  65535

/-- Retry loop shared by the orchestrator methods, modelling
`for attempt in range(n): try: return collab(attempt) except Exception as e:
exception = e` followed by the for-else `raise exception`.  The collaborator
function models the whole try-body of one attempt (handshake plus exchange).
Raising the initial `None` when `tries = 0` is Python's
`TypeError: exceptions must derive from BaseException`. -/
def retryGo (collab : Nat → Except PyErr α) (exception : Option PyErr) (attempt : Nat) :
    Nat → Except PyErr α
  | 0 =>
    match exception with
    | some e => .error e
    | none => .error (.TypeError ("exceptions must derive from BaseException"))
  | k + 1 =>
    match collab attempt with
    | .ok r => .ok r
    | .error e => retryGo collab (some e) (attempt + 1) k

/-- Model of `MinecraftServer.query`: its loop is `for attempt in range(tries)`
and on success returns the collaborator result, on exhaustion re-raises the
last recorded exception.  The DNS A lookup before the loop swallows its own
exceptions and only rewrites the host string, so it is outside the model; the
collaborator argument models the whole try-body of one attempt (constructing
the UDP connection, handshake and read_query). -/
def MinecraftServer.query (collab : Nat → Except PyErr α) (tries : Nat) : Except PyErr α :=
  retryGo collab none 0 tries

/-- Model of `MinecraftServer.ping`: after the transport is acquired (assumed
to connect), the loop header is `for attempt in range(retries)` but the
parameter is named `tries`, and no `retries` exists in any enclosing scope, so
evaluating the header raises `NameError` before any attempt runs; the
collaborator is never called. -/
def MinecraftServer.ping (_collab : Nat → Except PyErr α) (_tries : Nat) : Except PyErr α :=
  .error (.NameError ("name retries is not defined"))

/-- Model of `MinecraftServer.status`: same undefined-name loop header as
`MinecraftServer.ping`, so it raises `NameError` before any attempt. -/
def MinecraftServer.status (_collab : Nat → Except PyErr α) (_tries : Nat) : Except PyErr α :=
  .error (.NameError ("name retries is not defined"))

example : Connection.write_varint ⟨.bytearray [], []⟩ 300 = .ok ⟨.bytearray [0xAC, 0x02], []⟩ := by
  decide

example : Connection.read_varint ⟨.bytearray [], [0xAC, 0x02]⟩ = .ok (300, ⟨.bytearray [], []⟩) := by
  decide

example : Connection.write_varint ⟨.bytearray [], []⟩ (-1) =
    .error (.ValueError ("The value -1 is too big to send in a varint")) := by
  decide

example : Connection.read_varint ⟨.bytearray [], [0x80, 0x80, 0x80, 0x80, 0x80]⟩ =
    .error (.IOError ("Server sent a varint that was too big!")) := by
  decide

example : Connection.write_utf ⟨.bytearray [], []⟩ ("abc") =
    .ok ⟨.bytearray [3, 97, 98, 99], []⟩ := by
  decide

example : Connection.read_utf ⟨.bytearray [], [3, 97, 98, 99]⟩ =
    .ok (("abc"), ⟨.bytearray [], []⟩) := by
  decide

example : Connection.write_utf ⟨.bytearray [], []⟩ ("é") =
    .ok ⟨.bytearray [1, 0xC3, 0xA9], []⟩ := by
  decide

example : Connection.read_utf ⟨.bytearray [], [1, 0xC3, 0xA9]⟩ =
    .error .UnicodeDecodeError := by
  decide

theorem exceptBindOk {ε α β : Type} (a : α) (f : α → Except ε β) :
    (Except.ok a : Except ε α) >>= f = f a :=
  rfl

theorem exceptBindErr {ε α β : Type} (e : ε) (f : α → Except ε β) :
    (Except.error e : Except ε α) >>= f = .error e :=
  rfl

/-- Byte sequence the varint encoder produces for a natural number: 7-bit
groups, little-endian, continuation bit `0x80` on every byte but the last. -/
def natVarintBytes (m : Nat) : List Byte :=
  if h : m < 128 then [m]
  else (m % 128 + 128) :: natVarintBytes (m / 128)
termination_by m
decreasing_by
  exact Nat.div_lt_self (by omega) (by norm_num)

theorem natAnd127 (m : Nat) : m &&& 127 = m % 128 := by
  have h : (127 : Nat) = 2 ^ 7 - 1 := by norm_num
  have h2 : (128 : Nat) = 2 ^ 7 := by norm_num
  rw [h, h2, Nat.and_pow_two_sub_one_eq_mod]

theorem natAnd127_small : ∀ a : Nat, a < 128 → a &&& 127 = a := by
  intro a h
  rw [natAnd127]
  omega

theorem natAnd128_small : ∀ a : Nat, a < 128 → a &&& 128 = 0 := by
  decide

theorem natOr128_small : ∀ a : Nat, a < 128 → a ||| 128 = a + 128 := by
  decide

theorem natAnd127_cont : ∀ a : Nat, a < 128 → (a + 128) &&& 127 = a := by
  decide

theorem natAnd128_cont : ∀ a : Nat, a < 128 → (a + 128) &&& 128 = 128 := by
  decide

theorem pyNot127 : pyNot 127 = Int.negSucc 127 := rfl

theorem pyAnd_not127 (m : Nat) :
    pyAnd (Int.ofNat m) (pyNot 127) = 0 ↔ m < 128 := by
  rw [pyNot127]
  show Int.ofNat (natLdiff m 127) = 0 ↔ m < 128
  rw [natLdiff, natAnd127]
  constructor
  · intro h
    have h2 : m - m % 128 = 0 := by
      have h3 : ((m - m % 128 : Nat) : Int) = 0 := h
      exact_mod_cast h3
    omega
  · intro h
    have h2 : m - m % 128 = 0 := by omega
    rw [h2]
    rfl

theorem pyAnd_127 (m : Nat) : pyAnd (Int.ofNat m) 127 = Int.ofNat (m % 128) := by
  show Int.ofNat (m &&& 127) = Int.ofNat (m % 128)
  rw [natAnd127]

theorem pyOr_128 (a : Nat) (h : a < 128) :
    pyOr (Int.ofNat a) 128 = Int.ofNat (a + 128) := by
  show Int.ofNat (a ||| 128) = Int.ofNat (a + 128)
  rw [natOr128_small a h]

theorem pyShr_ofNat (m : Nat) : pyShr (Int.ofNat m) 7 = Int.ofNat (m / 128) := by
  show Int.ofNat (m >>> 7) = Int.ofNat (m / 128)
  rw [Nat.shiftRight_eq_div_pow]

theorem natVarint_split (m k : Nat) :
    ((m % 128) <<< k) ||| ((m / 128) <<< (k + 7)) = m <<< k := by
  have hdiv : m / 128 = m >>> 7 := by
    rw [Nat.shiftRight_eq_div_pow]
  have hmod : m % 128 = m % 2 ^ 7 := by norm_num
  apply Nat.eq_of_testBit_eq
  intro j
  rw [hdiv, hmod]
  simp only [Nat.testBit_lor, Nat.testBit_shiftLeft, Nat.testBit_mod_two_pow,
    Nat.testBit_shiftRight]
  by_cases h1 : k ≤ j
  · by_cases h2 : j - k < 7
    · have h3 : ¬ (k + 7 ≤ j) := by omega
      simp [ge_iff_le, h1, h2, h3]
    · have h3 : k + 7 ≤ j := by omega
      have h4 : 7 + (j - (k + 7)) = j - k := by omega
      simp [ge_iff_le, h1, h2, h3, h4]
  · have h3 : ¬ (k + 7 ≤ j) := by omega
    simp [ge_iff_le, h1, h3]

theorem write_bytes_bytearray (l r bs : List Byte) :
    Connection.write ⟨.bytearray l, r⟩ (.bytes bs) = .ok ⟨.bytearray (l ++ bs), r⟩ :=
  rfl

theorem natVarintBytes_small (m : Nat) (h : m < 128) : natVarintBytes m = [m] := by
  rw [natVarintBytes]
  exact dif_pos h

theorem natVarintBytes_big (m : Nat) (h : ¬ m < 128) :
    natVarintBytes m = (m % 128 + 128) :: natVarintBytes (m / 128) := by
  rw [natVarintBytes]
  exact dif_neg h

theorem structPackB_ofNat (m : Nat) (h : m < 256) : structPackB (Int.ofNat m) = .ok m := by
  have hcond : 0 ≤ Int.ofNat m ∧ Int.ofNat m < 256 := by
    constructor
    · exact Int.ofNat_nonneg m
    · show (m : Int) < 256
      exact_mod_cast h
  rw [structPackB, if_pos hcond]
  rfl

theorem writeVarintGo_ofNat (fuel : Nat) :
    ∀ (m : Nat) (l r : List Byte) (value : Int), m < 2 ^ (7 * fuel) → fuel ≠ 0 →
      writeVarintGo ⟨.bytearray l, r⟩ value (Int.ofNat m) fuel =
        .ok ⟨.bytearray (l ++ natVarintBytes m), r⟩ := by
  induction fuel with
  | zero =>
    intro m l r value hm hf
    exact absurd rfl hf
  | succ fuel ih =>
    intro m l r value hm _
    by_cases h : m < 128
    · rw [writeVarintGo, if_pos ((pyAnd_not127 m).2 h), structPackB_ofNat m (by omega)]
      show Connection.write ⟨.bytearray l, r⟩ (.bytes [m]) = _
      rw [write_bytes_bytearray, natVarintBytes_small m h]
    · have hmod : m % 128 < 128 := Nat.mod_lt m (by norm_num)
      have hfuel : fuel ≠ 0 := by
        intro hc
        rw [hc] at hm
        norm_num at hm
        exact absurd hm h
      have hdiv : m / 128 < 2 ^ (7 * fuel) := by
        rw [Nat.div_lt_iff_lt_mul (by norm_num : (0:Nat) < 128)]
        calc m < 2 ^ (7 * (fuel + 1)) := hm
        _ = 2 ^ (7 * fuel) * 128 := by
          rw [Nat.mul_succ, Nat.pow_add]
      rw [writeVarintGo, if_neg (by rw [pyAnd_not127]; omega), pyAnd_127, pyOr_128 _ hmod,
        structPackB_ofNat _ (by omega)]
      show writeVarintGo ⟨.bytearray (l ++ [m % 128 + 128]), r⟩ value
          (pyShr (Int.ofNat m) 7) fuel = _
      rw [pyShr_ofNat, ih (m / 128) _ r value hdiv hfuel, natVarintBytes_big m h]
      simp

theorem readVarintGo_natVarintBytes (fuel : Nat) :
    ∀ (m acc i : Nat) (s : SentVal) (rest : List Byte), m < 2 ^ (7 * fuel) → fuel ≠ 0 →
      readVarintGo ⟨s, natVarintBytes m ++ rest⟩ acc i fuel =
        .ok (acc ||| (m <<< (7 * i)), ⟨s, rest⟩) := by
  induction fuel with
  | zero =>
    intro m acc i s rest hm hf
    exact absurd rfl hf
  | succ fuel ih =>
    intro m acc i s rest hm _
    by_cases h : m < 128
    · rw [natVarintBytes_small m h]
      show (if m &&& 128 = 0 then
              (.ok (acc ||| ((m &&& 127) <<< (7 * i)), ⟨s, rest⟩) : Except PyErr (Nat × Connection))
            else readVarintGo ⟨s, rest⟩ (acc ||| ((m &&& 127) <<< (7 * i))) (i + 1) fuel) = _
      rw [if_pos (natAnd128_small m h), natAnd127_small m h]
    · have hmod : m % 128 < 128 := Nat.mod_lt m (by norm_num)
      have hfuel : fuel ≠ 0 := by
        intro hc
        rw [hc] at hm
        norm_num at hm
        exact absurd hm h
      have hdiv : m / 128 < 2 ^ (7 * fuel) := by
        rw [Nat.div_lt_iff_lt_mul (by norm_num : (0:Nat) < 128)]
        calc m < 2 ^ (7 * (fuel + 1)) := hm
        _ = 2 ^ (7 * fuel) * 128 := by
          rw [Nat.mul_succ, Nat.pow_add]
      rw [natVarintBytes_big m h]
      show (if (m % 128 + 128) &&& 128 = 0 then
              (.ok (acc ||| (((m % 128 + 128) &&& 127) <<< (7 * i)),
                ⟨s, natVarintBytes (m / 128) ++ rest⟩) : Except PyErr (Nat × Connection))
            else readVarintGo ⟨s, natVarintBytes (m / 128) ++ rest⟩
              (acc ||| (((m % 128 + 128) &&& 127) <<< (7 * i))) (i + 1) fuel) = _
      rw [if_neg (by rw [natAnd128_cont _ hmod]; norm_num), natAnd127_cont _ hmod,
        ih (m / 128) _ (i + 1) s rest hdiv hfuel, Nat.lor_assoc,
        show 7 * (i + 1) = 7 * i + 7 by ring, natVarint_split]

theorem natVarintBytes_length (fuel : Nat) :
    ∀ m : Nat, m < 2 ^ (7 * fuel) → fuel ≠ 0 → (natVarintBytes m).length ≤ fuel := by
  induction fuel with
  | zero =>
    intro m hm hf
    exact absurd rfl hf
  | succ fuel ih =>
    intro m hm _
    by_cases h : m < 128
    · rw [natVarintBytes_small m h]
      simp
    · have hfuel : fuel ≠ 0 := by
        intro hc
        rw [hc] at hm
        norm_num at hm
        exact absurd hm h
      have hdiv : m / 128 < 2 ^ (7 * fuel) := by
        rw [Nat.div_lt_iff_lt_mul (by norm_num : (0:Nat) < 128)]
        calc m < 2 ^ (7 * (fuel + 1)) := hm
        _ = 2 ^ (7 * fuel) * 128 := by
          rw [Nat.mul_succ, Nat.pow_add]
      rw [natVarintBytes_big m h]
      have h2 := ih (m / 128) hdiv hfuel
      simp only [List.length_cons]
      omega

theorem writeVarintGo_err (fuel : Nat) :
    ∀ (m : Nat) (l r : List Byte) (value : Int), 2 ^ (7 * fuel) ≤ m →
      writeVarintGo ⟨.bytearray l, r⟩ value (Int.ofNat m) fuel =
        .error (.ValueError ("The value " ++ toString value ++ " is too big to send in a varint")) := by
  induction fuel with
  | zero =>
    intro m l r value hm
    rfl
  | succ fuel ih =>
    intro m l r value hm
    have h128 : ¬ m < 128 := by
      have hle : (128:Nat) ≤ 2 ^ (7 * (fuel + 1)) := by
        calc (128:Nat) = 2 ^ 7 := by norm_num
        _ ≤ 2 ^ (7 * (fuel + 1)) := Nat.pow_le_pow_right (by norm_num) (by omega)
      omega
    have hmod : m % 128 < 128 := Nat.mod_lt m (by norm_num)
    have hdiv : 2 ^ (7 * fuel) ≤ m / 128 := by
      have h7 : 7 * (fuel + 1) = 7 * fuel + 7 := by ring
      have hpow : 2 ^ (7 * fuel) * 128 = 2 ^ (7 * (fuel + 1)) := by
        rw [h7, Nat.pow_add]
      rw [Nat.le_div_iff_mul_le (by norm_num : (0:Nat) < 128), hpow]
      exact hm
    rw [writeVarintGo, if_neg (by rw [pyAnd_not127]; omega), pyAnd_127, pyOr_128 _ hmod,
      structPackB_ofNat _ (by omega)]
    show writeVarintGo ⟨.bytearray (l ++ [m % 128 + 128]), r⟩ value
        (pyShr (Int.ofNat m) 7) fuel = _
    rw [pyShr_ofNat, ih (m / 128) _ r value hdiv]

theorem writeVarintGo_negSucc (fuel : Nat) :
    ∀ (n : Nat) (l r : List Byte) (value : Int),
      writeVarintGo ⟨.bytearray l, r⟩ value (Int.negSucc n) fuel =
        .error (.ValueError ("The value " ++ toString value ++ " is too big to send in a varint")) := by
  induction fuel with
  | zero =>
    intro n l r value
    rfl
  | succ fuel ih =>
    intro n l r value
    have hcond : pyAnd (Int.negSucc n) (pyNot 127) ≠ 0 := by
      rw [pyNot127]
      show Int.negSucc (n ||| 127) ≠ 0
      simp
    have hbyte : natLdiff 127 n < 128 := by
      rw [natLdiff]
      omega
    have hb : structPackB (pyOr (pyAnd (Int.negSucc n) 127) 128) = .ok (natLdiff 127 n + 128) := by
      show structPackB (pyOr (Int.ofNat (natLdiff 127 n)) 128) = _
      rw [pyOr_128 _ hbyte, structPackB_ofNat _ (by omega)]
    rw [writeVarintGo, if_neg hcond, hb]
    show writeVarintGo ⟨.bytearray (l ++ [natLdiff 127 n + 128]), r⟩ value
        (Int.negSucc (n >>> 7)) fuel = _
    exact ih (n >>> 7) _ r value

theorem write_varint_neg (v : Int) (hv : v < 0) (l r : List Byte) :
    Connection.write_varint ⟨.bytearray l, r⟩ v =
      .error (.ValueError ("The value " ++ toString v ++ " is too big to send in a varint")) := by
  cases v with
  | ofNat n =>
    exact absurd hv (not_lt.2 (Int.ofNat_nonneg n))
  | negSucc n =>
    exact writeVarintGo_negSucc 5 n l r _

theorem readVarintGo_cont_step (s : SentVal) (b : Byte) (t : List Byte) (acc i fuel : Nat)
    (hb : b &&& 128 ≠ 0) :
    readVarintGo ⟨s, b :: t⟩ acc i (fuel + 1) =
      readVarintGo ⟨s, t⟩ (acc ||| ((b &&& 127) <<< (7 * i))) (i + 1) fuel := by
  show (if b &&& 128 = 0 then
          (.ok (acc ||| ((b &&& 127) <<< (7 * i)), ⟨s, t⟩) : Except PyErr (Nat × Connection))
        else readVarintGo ⟨s, t⟩ (acc ||| ((b &&& 127) <<< (7 * i))) (i + 1) fuel) = _
  rw [if_neg hb]

/-- C1: for every integer `v` in `[0, 2^32)`, decoding the varint encoding of
`v` yields `v` again: `read_varint` applied to the bytes produced by
`write_varint(v)` returns `v` (and consumes exactly those bytes). -/
theorem varint_roundtrip_u32 (v : Nat) (h : v < 2 ^ 32) :
    ∃ wire : List Byte,
      Connection.write_varint ⟨.bytearray [], []⟩ (Int.ofNat v) = .ok ⟨.bytearray wire, []⟩ ∧
      Connection.read_varint ⟨.bytearray [], wire⟩ = .ok (v, ⟨.bytearray [], []⟩) := by
  have h35 : v < 2 ^ (7 * 5) := by
    norm_num at h ⊢
    omega
  refine ⟨natVarintBytes v, ?_, ?_⟩
  · rw [Connection.write_varint, writeVarintGo_ofNat 5 v [] [] _ h35 (by norm_num)]
    simp
  · rw [Connection.read_varint,
      show natVarintBytes v = natVarintBytes v ++ [] from (List.append_nil _).symm,
      readVarintGo_natVarintBytes 5 v 0 0 _ [] h35 (by norm_num)]
    simp

/-- Witness for C1 at `v = 300`. -/
theorem varint_roundtrip_u32_witness :
    (300 : Nat) < 2 ^ 32 ∧
    (∃ wire : List Byte,
      Connection.write_varint ⟨.bytearray [], []⟩ (Int.ofNat 300) = .ok ⟨.bytearray wire, []⟩ ∧
      Connection.read_varint ⟨.bytearray [], wire⟩ = .ok (300, ⟨.bytearray [], []⟩)) :=
  ⟨by norm_num, varint_roundtrip_u32 300 (by norm_num)⟩

/-- C10: the varint codec round-trips on the whole 35-bit payload domain: for
every `v` in `[0, 2^35)` the encoder succeeds with at most five bytes and the
decoder returns `v` — including values at or above `2^32`, which are not valid
32-bit protocol values. -/
theorem varint_roundtrip_35bit (v : Nat) (h : v < 2 ^ 35) :
    ∃ wire : List Byte,
      Connection.write_varint ⟨.bytearray [], []⟩ (Int.ofNat v) = .ok ⟨.bytearray wire, []⟩ ∧
      wire.length ≤ 5 ∧
      Connection.read_varint ⟨.bytearray [], wire⟩ = .ok (v, ⟨.bytearray [], []⟩) := by
  have h35 : v < 2 ^ (7 * 5) := by
    norm_num at h ⊢
    omega
  refine ⟨natVarintBytes v, ?_, natVarintBytes_length 5 v h35 (by norm_num), ?_⟩
  · rw [Connection.write_varint, writeVarintGo_ofNat 5 v [] [] _ h35 (by norm_num)]
    simp
  · rw [Connection.read_varint,
      show natVarintBytes v = natVarintBytes v ++ [] from (List.append_nil _).symm,
      readVarintGo_natVarintBytes 5 v 0 0 _ [] h35 (by norm_num)]
    simp

/-- Witness for C10 at `v = 2^32`, a value at or above `2^32` that the codec
still round-trips. -/
theorem varint_roundtrip_35bit_witness :
    (2 ^ 32 : Nat) < 2 ^ 35 ∧
    (∃ wire : List Byte,
      Connection.write_varint ⟨.bytearray [], []⟩ (Int.ofNat (2 ^ 32)) =
        .ok ⟨.bytearray wire, []⟩ ∧
      wire.length ≤ 5 ∧
      Connection.read_varint ⟨.bytearray [], wire⟩ = .ok (2 ^ 32, ⟨.bytearray [], []⟩)) :=
  ⟨by norm_num, varint_roundtrip_35bit (2 ^ 32) (by norm_num)⟩

/-- C5: encoding any value that would need a sixth byte (`2^35` or above)
raises the value-too-large `ValueError`, and decoding a byte sequence whose
first five bytes all carry the continuation bit raises the varint-too-big
`IOError`. -/
theorem varint_boundary (v : Nat) (hv : 2 ^ 35 ≤ v)
    (s : SentVal) (b0 b1 b2 b3 b4 : Byte) (rest : List Byte)
    (h0 : b0 &&& 128 ≠ 0) (h1 : b1 &&& 128 ≠ 0) (h2 : b2 &&& 128 ≠ 0)
    (h3 : b3 &&& 128 ≠ 0) (h4 : b4 &&& 128 ≠ 0) :
    Connection.write_varint ⟨.bytearray [], []⟩ (Int.ofNat v) =
      .error (.ValueError ("The value " ++ toString (Int.ofNat v) ++
        " is too big to send in a varint")) ∧
    Connection.read_varint ⟨s, [b0, b1, b2, b3, b4] ++ rest⟩ =
      .error (.IOError ("Server sent a varint that was too big!")) := by
  constructor
  · rw [Connection.write_varint]
    exact writeVarintGo_err 5 v [] [] _ (by norm_num at hv ⊢; omega)
  · rw [Connection.read_varint]
    exact (readVarintGo_cont_step s b0 _ _ _ 4 h0).trans
      ((readVarintGo_cont_step s b1 _ _ _ 3 h1).trans
      ((readVarintGo_cont_step s b2 _ _ _ 2 h2).trans
      ((readVarintGo_cont_step s b3 _ _ _ 1 h3).trans
      ((readVarintGo_cont_step s b4 _ _ _ 0 h4).trans rfl))))

/-- Witness for C5 at `v = 2^35` and the byte sequence `80 80 80 80 80`. -/
theorem varint_boundary_witness :
    (2 ^ 35 : Nat) ≤ 2 ^ 35 ∧ ((128 : Byte) &&& 128 ≠ 0) ∧
    Connection.write_varint ⟨.bytearray [], []⟩ (Int.ofNat (2 ^ 35)) =
      .error (.ValueError ("The value " ++ toString (Int.ofNat (2 ^ 35)) ++
        " is too big to send in a varint")) ∧
    Connection.read_varint ⟨.bytearray [], [128, 128, 128, 128, 128] ++ []⟩ =
      .error (.IOError ("Server sent a varint that was too big!")) := by
  have h := varint_boundary (2 ^ 35) (le_refl _) (.bytearray []) 128 128 128 128 128 []
    (by decide) (by decide) (by decide) (by decide) (by decide)
  exact ⟨le_refl _, by decide, h.1, h.2⟩

/-- C6 counterexample: `write_varint(-1)` raises `ValueError` instead of
producing the bytes of the unsigned 32-bit pattern `write_varint((-1) mod
2^32) = FF FF FF FF 0F`; the two calls do not agree. -/
theorem write_varint_neg_counterexample :
    Connection.write_varint ⟨.bytearray [], []⟩ (-1) =
      .error (.ValueError ("The value " ++ toString (-1 : Int) ++
        " is too big to send in a varint")) ∧
    Connection.write_varint ⟨.bytearray [], []⟩ ((-1) % (2 ^ 32)) =
      .ok ⟨.bytearray [255, 255, 255, 255, 15], []⟩ ∧
    Connection.write_varint ⟨.bytearray [], []⟩ (-1) ≠
      Connection.write_varint ⟨.bytearray [], []⟩ ((-1) % (2 ^ 32)) := by
  refine ⟨by decide, by decide, by decide⟩

/-- C6 amended: for every negative `v` in `[-2^31, 0)`, `write_varint(v)` does
not encode the unsigned 32-bit two's-complement pattern — it raises the
value-too-large `ValueError` (after emitting five continuation bytes). -/
theorem write_varint_negative_raises (v : Int) (_h1 : -(2 ^ 31) ≤ v) (h2 : v < 0) :
    Connection.write_varint ⟨.bytearray [], []⟩ v =
      .error (.ValueError ("The value " ++ toString v ++ " is too big to send in a varint")) :=
  write_varint_neg v h2 [] []

/-- Witness for the amended C6 at `v = -1`. -/
theorem write_varint_negative_raises_witness :
    -(2 ^ 31) ≤ (-1 : Int) ∧ (-1 : Int) < 0 ∧
    Connection.write_varint ⟨.bytearray [], []⟩ (-1) =
      .error (.ValueError ("The value " ++ toString (-1 : Int) ++
        " is too big to send in a varint")) :=
  ⟨by norm_num, by norm_num, write_varint_negative_raises (-1) (by norm_num) (by norm_num)⟩

/-- C7 counterexample: the claim quantifies over every byte sequence `B`, but
for `B` of length `2^35` the varint length prefix cannot be encoded, so
`write_buffer` raises `ValueError` and no round trip happens. -/
theorem write_buffer_huge_counterexample :
    (Connection.write_buffer ⟨.bytearray [], []⟩
        ⟨.bytearray (List.replicate (2 ^ 35) 0), []⟩).toOption = none := by
  have hlen : (List.replicate (2 ^ 35) (0 : Byte)).length = 2 ^ 35 :=
    List.length_replicate _ _
  show (do
      let c ← Connection.write_varint ⟨.bytearray [], []⟩
        (((List.replicate (2 ^ 35) (0 : Byte)).length : Nat) : Int)
      let c ← Connection.write c (.bytes (List.replicate (2 ^ 35) 0))
      (.ok (c, (⟨.str "", []⟩ : Connection)) :
        Except PyErr (Connection × Connection))).toOption = none
  rw [hlen, Connection.write_varint, ← Int.ofNat_eq_natCast,
    writeVarintGo_err 5 (2 ^ 35) [] [] _ (le_refl _)]
  rfl

/-- C7 amended: for every byte sequence `B` whose length is encodable as a
varint (below `2^35`), writing a buffered connection holding `B` as a
sub-packet and reading it back yields a buffered connection whose content is
exactly `B`, with `remaining()` equal to `len(B)` before any read and `0`
after reading all of it. -/
theorem buffer_roundtrip (B : List Byte) (h : B.length < 2 ^ 35) :
    ∃ wire : List Byte,
      Connection.write_buffer ⟨.bytearray [], []⟩ ⟨.bytearray B, []⟩ =
        .ok (⟨.bytearray wire, []⟩, ⟨.str "", []⟩) ∧
      Connection.read_buffer ⟨.bytearray [], wire⟩ =
        .ok (⟨.bytearray [], B⟩, ⟨.bytearray [], []⟩) ∧
      Connection.remaining ⟨.bytearray [], B⟩ = B.length ∧
      (Connection.read ⟨.bytearray [], B⟩ B.length).1 = B ∧
      Connection.remaining (Connection.read ⟨.bytearray [], B⟩ B.length).2 = 0 := by
  have h35 : B.length < 2 ^ (7 * 5) := by
    norm_num at h ⊢
    omega
  have hw : Connection.write_varint ⟨.bytearray [], []⟩ ((B.length : Nat) : Int) =
      .ok ⟨.bytearray (natVarintBytes B.length), []⟩ := by
    rw [Connection.write_varint]
    have h2 := writeVarintGo_ofNat 5 B.length [] [] ((B.length : Nat) : Int) h35 (by norm_num)
    simpa using h2
  have hr : Connection.read_varint ⟨.bytearray [], natVarintBytes B.length ++ B⟩ =
      .ok (B.length, ⟨.bytearray [], B⟩) := by
    rw [Connection.read_varint,
      readVarintGo_natVarintBytes 5 B.length 0 0 _ B h35 (by norm_num)]
    simp
  refine ⟨natVarintBytes B.length ++ B, ?_, ?_, rfl, ?_, ?_⟩
  · show (do
        let c ← Connection.write_varint ⟨.bytearray [], []⟩ ((B.length : Nat) : Int)
        let c ← Connection.write c (.bytes B)
        (.ok (c, (⟨.str "", []⟩ : Connection)) :
          Except PyErr (Connection × Connection))) = _
    rw [hw]
    show (do
        let c ← Connection.write ⟨.bytearray (natVarintBytes B.length), []⟩ (.bytes B)
        (.ok (c, (⟨.str "", []⟩ : Connection)) :
          Except PyErr (Connection × Connection))) = _
    rw [write_bytes_bytearray, exceptBindOk]
  · rw [Connection.read_buffer, hr]
    simp [exceptBindOk, Connection.read, Connection.receive]
  · simp [Connection.read]
  · simp [Connection.read, Connection.remaining]

/-- Witness for the amended C7 at `B = [7, 8, 9]`. -/
theorem buffer_roundtrip_witness :
    ([7, 8, 9] : List Byte).length < 2 ^ 35 ∧
    (∃ wire : List Byte,
      Connection.write_buffer ⟨.bytearray [], []⟩ ⟨.bytearray [7, 8, 9], []⟩ =
        .ok (⟨.bytearray wire, []⟩, ⟨.str "", []⟩) ∧
      Connection.read_buffer ⟨.bytearray [], wire⟩ =
        .ok (⟨.bytearray [], [7, 8, 9]⟩, ⟨.bytearray [], []⟩) ∧
      Connection.remaining ⟨.bytearray [], [7, 8, 9]⟩ = ([7, 8, 9] : List Byte).length ∧
      (Connection.read ⟨.bytearray [], [7, 8, 9]⟩ ([7, 8, 9] : List Byte).length).1 = [7, 8, 9] ∧
      Connection.remaining
        (Connection.read ⟨.bytearray [], [7, 8, 9]⟩ ([7, 8, 9] : List Byte).length).2 = 0) :=
  ⟨by norm_num, buffer_roundtrip [7, 8, 9] (by norm_num)⟩

/-- C8: the first flush does return exactly the accumulated bytes, but it
resets `sent` to the empty *string*, so the subsequent `write(D)` raises
`AttributeError` (a `str` has no `extend`) instead of succeeding — the second
flush can never return `D`. -/
theorem flush_then_write_fails :
    Connection.flush ⟨.bytearray [65, 66], []⟩ = (.bytearray [65, 66], ⟨.str "", []⟩) ∧
    Connection.write ⟨.str "", []⟩ (.bytes [68]) =
      .error (.AttributeError ("str object has no attribute extend")) :=
  ⟨rfl, rfl⟩

/-- C2: the buffered read of 5 bytes from a 3-byte queue returns the 3-byte
short slice with no error, while the TCP read of 5 bytes from a peer that
closes after sending 3 raises `IOError` as the claim says. -/
theorem read_short_slice_vs_tcp :
    Connection.read ⟨.bytearray [], [1, 2, 3]⟩ 5 = ([1, 2, 3], ⟨.bytearray [], []⟩) ∧
    TCPSocketConnection.read ⟨[[1, 2, 3]]⟩ 5 =
      .error (.IOError ("Server did not respond with any information!")) := by
  refine ⟨rfl, by decide⟩

/-- C3: `write_utf` writes the varint of the *character* count, not the UTF-8
byte length: for the one-character, two-byte string "é" it writes varint 1
followed by the two bytes C3 A9, and `read_utf` on that stream reads a single
byte and fails with a decode error instead of returning the string. -/
theorem write_utf_multibyte_counterexample :
    Connection.write_utf ⟨.bytearray [], []⟩ ("é") = .ok ⟨.bytearray [1, 0xC3, 0xA9], []⟩ ∧
    (utf8Encode ("é")).length = 2 ∧
    ("é" : String).length = 1 ∧
    Connection.read_utf ⟨.bytearray [], [1, 0xC3, 0xA9]⟩ = .error .UnicodeDecodeError := by
  refine ⟨by decide, by decide, by decide, by decide⟩

/-- C9 counterexample: `remaining()` on the datagram variant does return a
value — the constant 65535 — instead of raising a programmer error. -/
theorem udp_remaining_returns_value :
    UDPSocketConnection.remaining ⟨[]⟩ = 65535 :=
  rfl

/-- C9 amended: `flush` and `receive` raise `TypeError` on both the stream and
datagram variants, and `remaining` raises `TypeError` on the stream variant;
`remaining` on the datagram variant returns 65535 rather than raising. -/
theorem transport_unsupported_ops (t : TCPSocketConnection) (u : UDPSocketConnection)
    (data : List Byte) :
    t.flush = .error (.TypeError ("TCPSocketConnection does not support flush()")) ∧
    t.receive data = .error (.TypeError ("TCPSocketConnection does not support receive()")) ∧
    t.remaining = .error (.TypeError ("TCPSocketConnection does not support remaining()")) ∧
    u.flush = .error (.TypeError ("UDPSocketConnection does not support flush()")) ∧
    u.receive data = .error (.TypeError ("UDPSocketConnection does not support receive()")) ∧
    u.remaining = 65535 :=
  ⟨rfl, rfl, rfl, rfl, rfl, rfl⟩

/-- C4: `ping` and `status` raise `NameError` before any attempt (their loop
header names the undefined `retries`), so they never return a collaborator
result; `query` does implement the claimed retry contract — with a
collaborator failing on attempts 0 and 1 and succeeding on attempt 2 it
returns the attempt-2 result, and with an always-failing collaborator it
raises exactly the last (third) attempt error. -/
theorem ping_status_nameerror_query_retry :
    MinecraftServer.ping (fun _ => (.ok 42 : Except PyErr Nat)) 3 =
      .error (.NameError ("name retries is not defined")) ∧
    MinecraftServer.status (fun _ => (.ok 42 : Except PyErr Nat)) 3 =
      .error (.NameError ("name retries is not defined")) ∧
    MinecraftServer.query
      (fun attempt => if attempt < 2 then (.error (.IOError ("boom")) : Except PyErr Nat)
        else .ok 42) 3 = .ok 42 ∧
    MinecraftServer.query
      (fun attempt => (.error (.IOError (toString attempt)) : Except PyErr Nat)) 3 =
      .error (.IOError ("2")) := by
  refine ⟨rfl, rfl, by decide, by decide⟩

/-- Support: the query retry loop returns the first successful attempt result:
if attempts `0 .. k-1` fail and attempt `k` (within the budget) succeeds,
`query` returns attempt `k`'s result. -/
theorem query_returns_first_success (r : α) :
    ∀ (n attempt k : Nat) (collab : Nat → Except PyErr α) (exception : Option PyErr),
      k < n → (∀ j, j < k → ∃ e, collab (attempt + j) = .error e) →
      collab (attempt + k) = .ok r →
      retryGo collab exception attempt n = .ok r := by
  intro n
  induction n with
  | zero =>
    intro attempt k collab exception hk
    exact absurd hk (by omega)
  | succ n ih =>
    intro attempt k collab exception hk hfail hsucc
    match k with
    | 0 =>
      rw [retryGo]
      rw [show collab attempt = .ok r from by simpa using hsucc]
    | k + 1 =>
      obtain ⟨e, he⟩ := hfail 0 (by omega)
      rw [retryGo, show collab attempt = .error e from by simpa using he]
      refine ih (attempt + 1) k collab (some e) (by omega) ?_ ?_
      · intro j hj
        obtain ⟨e2, he2⟩ := hfail (j + 1) (by omega)
        exact ⟨e2, by rw [show attempt + 1 + j = attempt + (j + 1) from by omega]; exact he2⟩
      · rw [show attempt + 1 + k = attempt + (k + 1) from by omega]
        exact hsucc

/-- Support: when every attempt fails, the query retry loop raises exactly the
last attempt's error. -/
theorem query_raises_last_error (err : Nat → PyErr) :
    ∀ (n attempt : Nat) (collab : Nat → Except PyErr α) (exception : Option PyErr),
      (∀ j, collab j = .error (err j)) → n ≠ 0 →
      retryGo collab exception attempt n = .error (err (attempt + n - 1)) := by
  intro n
  induction n with
  | zero =>
    intro attempt collab exception _ hn
    exact absurd rfl hn
  | succ n ih =>
    intro attempt collab exception hfail _
    rw [retryGo, hfail attempt]
    show retryGo collab (some (err attempt)) (attempt + 1) n = _
    match n with
    | 0 =>
      show Except.error (err attempt) = _
      have he : attempt + (0 + 1) - 1 = attempt := by omega
      rw [he]
    | n + 1 =>
      have he : attempt + 1 + (n + 1) - 1 = attempt + (n + 1 + 1) - 1 := by omega
      rw [ih (attempt + 1) collab (some (err attempt)) hfail (by omega), he]
